import Mathlib

/-!
Verification of the pre-trade risk validation engine of the AlphaBharat
trading dashboard.  The engine (`RiskManager.validateOrder`) is a pure,
synchronous rules engine: six ordered guards over an order request, a
portfolio snapshot, an optional strategy context, an aggregate P&L figure
and a risk configuration.  JavaScript numbers are modelled as rationals
(`ℚ`): every comparison in the source is a strict greater-than or a
non-strict less-or-equal on exact values, and no rounding is performed.
The display formatting `toLocaleString` is modelled by `fmtNum` (plain
`toString` on `ℚ`): the development never depends on the digits produced,
only on which fields of which template each reason string carries.
-/

namespace AlphaBharat

/-- Order side, from the `Side` enum of the types module. -/
inductive Side where
  | BUY
  | SELL
deriving DecidableEq, Repr

/-- Strategy lifecycle status, from the `StrategyStatus` enum. -/
inductive StrategyStatus where
  | RUNNING
  | PAUSED
  | STOPPED
  | ERROR
deriving DecidableEq, Repr

/-- A per-symbol holding, from the `Position` interface. -/
structure Position where
  symbol : String
  quantity : ℚ
  averagePrice : ℚ
  marketValue : ℚ
deriving DecidableEq, Repr

/-- A strategy context, from the `Strategy` interface; `validateOrder`
reads only `name` and `pnl`. -/
structure Strategy where
  id : String
  name : String
  language : String
  status : StrategyStatus
  pnl : ℚ
  latency : ℚ
  memoryUsage : ℚ
deriving DecidableEq, Repr

/-- A correlation group, from the `CorrelationGroup` interface. -/
structure CorrelationGroup where
  id : String
  name : String
  symbols : List String
  maxExposureUSD : ℚ
deriving DecidableEq, Repr

/-- The risk configuration record, from the `RiskConfig` interface. -/
structure RiskConfig where
  maxPositionSizeUSD : ℚ
  maxDailyLossPerStrategy : ℚ
  maxGlobalDailyLoss : ℚ
  maxOrderValue : ℚ
  restrictedSymbols : List String
  correlationGroups : List CorrelationGroup
deriving DecidableEq, Repr

/-- The engine verdict, from the `RiskCheckResult` interface: an allow
flag plus an optional reason string. -/
structure RiskCheckResult where
  allowed : Bool
  reason : Option String
deriving DecidableEq, Repr

/-- Model of JavaScript `Number.prototype.toLocaleString` used in the
reason templates: display formatting, abstracted as `toString` on `ℚ`. -/
def fmtNum (q : ℚ) : String := toString q

/-- Reason string of check 1 (restricted symbol). -/
def restrictedReason (symbol : String) : String :=
  "Risk: Symbol " ++ symbol ++ " is restricted."

/-- Reason string of check 2 (max order value). -/
def orderValueReason (orderValue maxOrderValue : ℚ) : String :=
  "Risk: Order value $" ++ fmtNum orderValue ++ " exceeds limit $" ++
    fmtNum maxOrderValue ++ "."

/-- Reason string of check 3 (global daily loss circuit breaker). -/
def globalLossReason (maxGlobalDailyLoss : ℚ) : String :=
  "Risk: Global daily loss limit reached ($" ++ fmtNum maxGlobalDailyLoss ++
    "). Trading halted."

/-- Reason string of check 4 (per-strategy daily loss). -/
def strategyLossReason (name : String) (maxDailyLossPerStrategy : ℚ) : String :=
  "Risk: Strategy " ++ name ++ " hit daily loss limit ($" ++
    fmtNum maxDailyLossPerStrategy ++ ")."

/-- Reason string of check 5 (projected single-instrument exposure). -/
def positionReason (symbol : String) (projectedExposure limit : ℚ) : String :=
  "Risk: Projected " ++ symbol ++ " position $" ++ fmtNum projectedExposure ++
    " exceeds limit $" ++ fmtNum limit ++ "."

/-- Reason string of check 6 (correlation-group exposure). -/
def groupReason (name : String) (total limit : ℚ) : String :=
  "Risk: Correlation Limit Breached. Group '" ++ name ++
    "' exposure would be $" ++ fmtNum total ++ " (Limit: $" ++
    fmtNum limit ++ ")."

/-- Check 4 guard of the source: `strategy && strategy.pnl <= -limit`. -/
def strategyLossBreached (config : RiskConfig) (strategy : Option Strategy) : Bool :=
  match strategy with
  | none => false
  | some st => decide (st.pnl ≤ -config.maxDailyLossPerStrategy)

/-- Name used in the check 4 reason; only read when the guard fired, hence
when the strategy is present. -/
def strategyNameOf (strategy : Option Strategy) : String :=
  match strategy with
  | none => ""
  | some st => st.name

/-- Source line `const currentPos = allPositions.find(p => p.symbol === symbol)`
followed by `currentPos ? currentPos.quantity : 0`. -/
def currentQtyOf (allPositions : List Position) (symbol : String) : ℚ :=
  match allPositions.find? (fun p => p.symbol == symbol) with
  | some p => p.quantity
  | none => 0

/-- Source: `newQty = currentQty ± quantity` depending on the side. -/
def newQtyOf (allPositions : List Position) (symbol : String) (side : Side)
    (quantity : ℚ) : ℚ :=
  match side with
  | Side.BUY => currentQtyOf allPositions symbol + quantity
  | Side.SELL => currentQtyOf allPositions symbol - quantity

/-- Source: `projectedExposure = Math.abs(newQty * price)`. -/
def projectedExposureOf (allPositions : List Position) (symbol : String)
    (side : Side) (quantity price : ℚ) : ℚ :=
  |newQtyOf allPositions symbol side quantity * price|

/-- The `reduce` of check 6: sum of `marketValue` over the group's
positions, skipping the traded symbol itself. -/
def groupExposure (group : CorrelationGroup) (allPositions : List Position)
    (symbol : String) : ℚ :=
  allPositions.foldl
    (fun acc pos =>
      if group.symbols.contains pos.symbol then
        if pos.symbol == symbol then acc else acc + pos.marketValue
      else acc)
    0

/-- Check 6 of the source: find the first correlation group containing the
symbol; when present, deny iff the group exposure plus the projected
exposure strictly exceeds the group cap. -/
def correlationCheck (config : RiskConfig) (symbol : String)
    (allPositions : List Position) (projectedExposure : ℚ) : RiskCheckResult :=
  match config.correlationGroups.find? (fun g => g.symbols.contains symbol) with
  | some group =>
      let totalGroupExposure := groupExposure group allPositions symbol + projectedExposure
      if totalGroupExposure > group.maxExposureUSD then
        ⟨false, some (groupReason group.name totalGroupExposure group.maxExposureUSD)⟩
      else
        ⟨true, none⟩
  | none => ⟨true, none⟩

/-- Check 5 of the source, falling through to check 6. -/
def positionCheck (config : RiskConfig) (symbol : String) (side : Side)
    (price quantity : ℚ) (allPositions : List Position) : RiskCheckResult :=
  let projectedExposure := projectedExposureOf allPositions symbol side quantity price
  if projectedExposure > config.maxPositionSizeUSD then
    ⟨false, some (positionReason symbol projectedExposure config.maxPositionSizeUSD)⟩
  else
    correlationCheck config symbol allPositions projectedExposure

/-- Checks 3 and 4 of the source (the two loss circuit breakers), falling
through to checks 5 and 6. -/
def lossChecks (config : RiskConfig) (symbol : String) (side : Side)
    (price quantity : ℚ) (allPositions : List Position)
    (strategy : Option Strategy) (globalDailyPnL : ℚ) : RiskCheckResult :=
  if globalDailyPnL ≤ -config.maxGlobalDailyLoss then
    ⟨false, some (globalLossReason config.maxGlobalDailyLoss)⟩
  else if strategyLossBreached config strategy then
    ⟨false, some (strategyLossReason (strategyNameOf strategy) config.maxDailyLossPerStrategy)⟩
  else
    positionCheck config symbol side price quantity allPositions

/-- `RiskManager.validateOrder` of the source: the six guards in source
order, each early `return` modelled as an `if`-chain branch. -/
def validateOrder (config : RiskConfig) (symbol : String) (side : Side)
    (price quantity : ℚ) (allPositions : List Position)
    (strategy : Option Strategy) (globalDailyPnL : ℚ) : RiskCheckResult :=
  let orderValue := price * quantity
  if config.restrictedSymbols.contains symbol then
    ⟨false, some (restrictedReason symbol)⟩
  else if orderValue > config.maxOrderValue then
    ⟨false, some (orderValueReason orderValue config.maxOrderValue)⟩
  else
    lossChecks config symbol side price quantity allPositions strategy globalDailyPnL

/-- The `RiskManager` class: its only instance state is the current
configuration. -/
structure RiskManager where
  config : RiskConfig
deriving DecidableEq, Repr

/-- The class constructor: stores the supplied configuration. -/
def RiskManager.create (config : RiskConfig) : RiskManager := ⟨config⟩

/-- Getter `getConfig`. -/
def RiskManager.getConfig (rm : RiskManager) : RiskConfig := rm.config

/-- Setter `setConfig`: replaces the stored configuration wholesale. -/
def RiskManager.setConfig (rm : RiskManager) (config : RiskConfig) : RiskManager :=
  { rm with config := config }

/-- The `validateOrder` method in explicit-state-passing form: the result
paired with the post-call manager state.  The method body contains no
assignment to `this.config` and no mutation of its arguments, so the
returned state is the receiver unchanged. -/
def RiskManager.validateOrder (rm : RiskManager) (symbol : String) (side : Side)
    (price quantity : ℚ) (allPositions : List Position)
    (strategy : Option Strategy) (globalDailyPnL : ℚ) :
    RiskCheckResult × RiskManager :=
  (AlphaBharat.validateOrder rm.config symbol side price quantity allPositions strategy globalDailyPnL, rm)

/-- A configuration used to exercise the theorems on concrete data; it is
the configuration of the repository's own unit tests. -/
def cfgA : RiskConfig :=
  ⟨100000, 5000, 10000, 50000, ["SCAM"],
    [⟨"CRYPTO", "Crypto Assets", ["BTC", "ETH", "SOL"], 150000⟩]⟩

/-- C6: restricted-symbol absolute veto.  Whatever the side, price,
quantity, portfolio, strategy and global P&L, an order on a symbol listed
in `restrictedSymbols` is denied, with the reason identifying that symbol
as restricted. -/
theorem validateOrder_restricted_denies (config : RiskConfig) (symbol : String)
    (side : Side) (price quantity : ℚ) (allPositions : List Position)
    (strategy : Option Strategy) (globalDailyPnL : ℚ)
    (h : config.restrictedSymbols.contains symbol = true) :
    validateOrder config symbol side price quantity allPositions strategy globalDailyPnL
      = ⟨false, some (restrictedReason symbol)⟩ := by
  have hmem : symbol ∈ config.restrictedSymbols := by simpa using h
  simp [validateOrder, hmem]

/-- Witness for C6, the spec's Scenario A: `BUY SCAM 10×100` under `cfgA`
is denied as restricted. -/
theorem validateOrder_restricted_denies_witness :
    cfgA.restrictedSymbols.contains "SCAM" = true ∧
    validateOrder cfgA "SCAM" Side.BUY 10 100 [] none 0
      = ⟨false, some (restrictedReason "SCAM")⟩ :=
  ⟨by decide,
    validateOrder_restricted_denies cfgA "SCAM" Side.BUY 10 100 [] none 0 (by decide)⟩

/-- C5: global daily loss circuit breaker.  Once `globalDailyPnL` is at or
below `-maxGlobalDailyLoss` (equality included), no order whatsoever is
approved. -/
theorem validateOrder_global_loss_halts (config : RiskConfig) (symbol : String)
    (side : Side) (price quantity : ℚ) (allPositions : List Position)
    (strategy : Option Strategy) (globalDailyPnL : ℚ)
    (h : globalDailyPnL ≤ -config.maxGlobalDailyLoss) :
    (validateOrder config symbol side price quantity allPositions strategy globalDailyPnL).allowed
      = false := by
  simp only [validateOrder, lossChecks]
  split_ifs <;> simp_all

/-- Witness for C5 at the equality boundary: global P&L of exactly
`-maxGlobalDailyLoss` already halts an otherwise innocuous order. -/
theorem validateOrder_global_loss_halts_witness :
    ((-10000 : ℚ) ≤ -cfgA.maxGlobalDailyLoss) ∧
    (validateOrder cfgA "BTC" Side.BUY 1 1 [] none (-10000)).allowed = false :=
  ⟨by decide,
    validateOrder_global_loss_halts cfgA "BTC" Side.BUY 1 1 [] none (-10000) (by decide)⟩

/-- C8: purity of `validateOrder`.  In the explicit-state-passing model of
the method, the post-call manager is the receiver itself — the stored
configuration observable through `getConfig` is unchanged — and a second
call with identical arguments returns the identical `RiskCheckResult`.
The argument values (`allPositions`, `strategy`) are immutable in the
embedding, matching a method body that only reads them. -/
theorem riskManager_validateOrder_pure (rm : RiskManager) (symbol : String)
    (side : Side) (price quantity : ℚ) (allPositions : List Position)
    (strategy : Option Strategy) (globalDailyPnL : ℚ) :
    (rm.validateOrder symbol side price quantity allPositions strategy globalDailyPnL).2 = rm ∧
    (rm.validateOrder symbol side price quantity allPositions strategy globalDailyPnL).2.getConfig
      = rm.getConfig ∧
    ((rm.validateOrder symbol side price quantity allPositions strategy globalDailyPnL).2.validateOrder
        symbol side price quantity allPositions strategy globalDailyPnL).1
      = (rm.validateOrder symbol side price quantity allPositions strategy globalDailyPnL).1 :=
  ⟨rfl, rfl, rfl⟩

/-- C9: configuration round-trip.  `setConfig c` followed by `getConfig`
returns exactly `c` (all six fields, lists in order), and every subsequent
validation is evaluated against `c`, not against the configuration `c0`
passed at construction. -/
theorem riskManager_setConfig_roundtrip (rm : RiskManager) (c c0 : RiskConfig)
    (symbol : String) (side : Side) (price quantity : ℚ)
    (allPositions : List Position) (strategy : Option Strategy)
    (globalDailyPnL : ℚ) :
    (rm.setConfig c).getConfig = c ∧
    ((rm.setConfig c).validateOrder symbol side price quantity allPositions strategy globalDailyPnL).1
      = validateOrder c symbol side price quantity allPositions strategy globalDailyPnL ∧
    (((RiskManager.create c0).setConfig c).validateOrder symbol side price quantity allPositions
        strategy globalDailyPnL).1
      = ((RiskManager.create c).validateOrder symbol side price quantity allPositions
        strategy globalDailyPnL).1 :=
  ⟨rfl, rfl, rfl⟩

/-- C10: side symmetry on an empty position.  When the portfolio holds no
position for the traded symbol, BUY and SELL of the same symbol, price and
quantity produce the identical verdict (same flag, same reason string):
the projected exposure is `|±quantity × price|` either way, and no other
check reads the side. -/
theorem validateOrder_side_symmetric_when_flat (config : RiskConfig) (symbol : String)
    (price quantity : ℚ) (allPositions : List Position) (strategy : Option Strategy)
    (globalDailyPnL : ℚ)
    (h : allPositions.find? (fun p => p.symbol == symbol) = none) :
    validateOrder config symbol Side.BUY price quantity allPositions strategy globalDailyPnL
      = validateOrder config symbol Side.SELL price quantity allPositions strategy globalDailyPnL := by
  have hq : currentQtyOf allPositions symbol = 0 := by
    simp [currentQtyOf, h]
  have hproj : projectedExposureOf allPositions symbol Side.BUY quantity price
      = projectedExposureOf allPositions symbol Side.SELL quantity price := by
    simp [projectedExposureOf, newQtyOf, hq, neg_mul, abs_neg]
  simp only [validateOrder, lossChecks, positionCheck, hproj]

/-- Witness for C10: with an empty portfolio, BUY and SELL of `BTC 2×30000`
get the same verdict under `cfgA`. -/
theorem validateOrder_side_symmetric_when_flat_witness :
    (([] : List Position).find? (fun p => p.symbol == "BTC") = none) ∧
    validateOrder cfgA "BTC" Side.BUY 30000 2 [] none 0
      = validateOrder cfgA "BTC" Side.SELL 30000 2 [] none 0 :=
  ⟨rfl, validateOrder_side_symmetric_when_flat cfgA "BTC" 30000 2 [] none 0 rfl⟩

/-- A configuration whose two correlation groups both contain `BTC`; the
second group has a zero cap, so it is breached by any nonzero projected
exposure, while the first (the only one the engine consults) is not. -/
def cfgTwoGroups : RiskConfig :=
  ⟨1000, 1000, 1000, 1000, [],
    [⟨"G1", "Group One", ["BTC"], 1000⟩, ⟨"G2", "Group Two", ["BTC"], 0⟩]⟩

/-- C1 counterexample: the engine checks only the FIRST correlation group
containing the symbol, so an order can be allowed while a later group
containing the symbol has its computed total exposure strictly above its
`maxExposureUSD`.  Here `BUY BTC 1×1` is allowed, yet group `G2` (cap 0)
contains `BTC` and its computed total exposure is 1 > 0. -/
theorem validateOrder_unchecked_second_group :
    (validateOrder cfgTwoGroups "BTC" Side.BUY 1 1 [] none 0).allowed = true ∧
    (⟨"G2", "Group Two", ["BTC"], 0⟩ : CorrelationGroup) ∈ cfgTwoGroups.correlationGroups ∧
    (⟨"G2", "Group Two", ["BTC"], 0⟩ : CorrelationGroup).symbols.contains "BTC" = true ∧
    groupExposure ⟨"G2", "Group Two", ["BTC"], 0⟩ [] "BTC"
        + projectedExposureOf [] "BTC" Side.BUY 1 1
      > (⟨"G2", "Group Two", ["BTC"], 0⟩ : CorrelationGroup).maxExposureUSD := by
  refine ⟨?_, by decide, by decide, ?_⟩
  · norm_num +decide [validateOrder, lossChecks, positionCheck, correlationCheck, cfgTwoGroups,
      projectedExposureOf, newQtyOf, currentQtyOf, groupExposure, strategyLossBreached,
      List.find?, List.foldl]
  · norm_num [groupExposure, projectedExposureOf, newQtyOf, currentQtyOf, List.find?, List.foldl]

/-- C1 as amended: soundness of approval.  If `validateOrder` allows the
order then the order value is within `maxOrderValue`, the projected
exposure is within `maxPositionSizeUSD`, the FIRST correlation group
containing the symbol (if any) has its computed total exposure within its
`maxExposureUSD` (later groups are not checked), the global daily P&L is
strictly above `-maxGlobalDailyLoss`, the symbol is not restricted, and
any supplied strategy has `pnl` strictly above
`-maxDailyLossPerStrategy`. -/
theorem validateOrder_allowed_sound (config : RiskConfig) (symbol : String)
    (side : Side) (price quantity : ℚ) (allPositions : List Position)
    (strategy : Option Strategy) (globalDailyPnL : ℚ)
    (h : (validateOrder config symbol side price quantity allPositions strategy globalDailyPnL).allowed
      = true) :
    price * quantity ≤ config.maxOrderValue ∧
    projectedExposureOf allPositions symbol side quantity price ≤ config.maxPositionSizeUSD ∧
    (∀ g, config.correlationGroups.find? (fun g => g.symbols.contains symbol) = some g →
      groupExposure g allPositions symbol
          + projectedExposureOf allPositions symbol side quantity price
        ≤ g.maxExposureUSD) ∧
    -config.maxGlobalDailyLoss < globalDailyPnL ∧
    config.restrictedSymbols.contains symbol = false ∧
    (∀ st, strategy = some st → -config.maxDailyLossPerStrategy < st.pnl) := by
  simp only [validateOrder, lossChecks, positionCheck, correlationCheck] at h
  split_ifs at h with h1 h2 h3 h4 h5
  have hrestr : config.restrictedSymbols.contains symbol = false := by
    simpa using h1
  have hstrat : ∀ st, strategy = some st → -config.maxDailyLossPerStrategy < st.pnl := by
    intro st hst
    subst hst
    simp only [strategyLossBreached, decide_eq_true_eq] at h4
    exact lt_of_not_le h4
  refine ⟨le_of_not_lt h2, le_of_not_lt h5, ?_, lt_of_not_le h3, hrestr, hstrat⟩
  intro g hg
  rw [hg] at h
  have h' : (if groupExposure g allPositions symbol
        + projectedExposureOf allPositions symbol side quantity price > g.maxExposureUSD then
      ({ allowed := false,
         reason := some (groupReason g.name (groupExposure g allPositions symbol
           + projectedExposureOf allPositions symbol side quantity price) g.maxExposureUSD) }
        : RiskCheckResult)
    else { allowed := true, reason := none }).allowed = true := h
  split_ifs at h' with h6
  exact le_of_not_lt h6

/-- Witness for C1 (amended): an allowed order under `cfgA` satisfies all
the bounds; here `BUY BTC 1×40000` with an existing ETH position. -/
theorem validateOrder_allowed_sound_witness :
    ((validateOrder cfgA "BTC" Side.BUY 40000 1 [⟨"ETH", 40, 2500, 100000⟩] none 0).allowed
      = true) ∧
    ((40000 : ℚ) * 1 ≤ cfgA.maxOrderValue ∧
     projectedExposureOf [⟨"ETH", 40, 2500, 100000⟩] "BTC" Side.BUY 1 40000
       ≤ cfgA.maxPositionSizeUSD ∧
     (∀ g, cfgA.correlationGroups.find? (fun g => g.symbols.contains "BTC") = some g →
       groupExposure g [⟨"ETH", 40, 2500, 100000⟩] "BTC"
           + projectedExposureOf [⟨"ETH", 40, 2500, 100000⟩] "BTC" Side.BUY 1 40000
         ≤ g.maxExposureUSD) ∧
     -cfgA.maxGlobalDailyLoss < (0 : ℚ) ∧
     cfgA.restrictedSymbols.contains "BTC" = false ∧
     (∀ st, (none : Option Strategy) = some st → -cfgA.maxDailyLossPerStrategy < st.pnl)) :=
  ⟨by norm_num +decide [validateOrder, lossChecks, positionCheck, correlationCheck, cfgA,
      projectedExposureOf, newQtyOf, currentQtyOf, groupExposure, strategyLossBreached,
      List.find?, List.foldl, (by decide : ("ETH" == "BTC") = false)],
   validateOrder_allowed_sound cfgA "BTC" Side.BUY 40000 1 [⟨"ETH", 40, 2500, 100000⟩] none 0
     (by norm_num +decide [validateOrder, lossChecks, positionCheck, correlationCheck, cfgA,
       projectedExposureOf, newQtyOf, currentQtyOf, groupExposure, strategyLossBreached,
       List.find?, List.foldl, (by decide : ("ETH" == "BTC") = false)])⟩

/-- Helper: `find?` returns the head of the first satisfying suffix. -/
theorem find_first_of_append {α : Type} (p : α → Bool) (pre post : List α) (a : α)
    (hpre : ∀ x ∈ pre, p x = false) (ha : p a = true) :
    (pre ++ a :: post).find? p = some a := by
  induction pre with
  | nil => simp [List.find?, ha]
  | cons b l ih =>
      have hb : p b = false := hpre b (List.mem_cons_self b l)
      simp only [List.cons_append, List.find?, hb]
      exact ih (fun x hx => hpre x (List.mem_cons_of_mem b hx))

/-- C3: correlation-group check.  Assuming checks 1–5 pass, if the group
list decomposes as `pre ++ g :: post` where no group of `pre` contains the
symbol and `g` does — i.e. `g` is the FIRST group containing the symbol in
list order — then the verdict is decided by `g` alone: denial with the
group reason exactly when `g`'s exposure sum (market values of the group's
other positions, plus the projected exposure of the traded symbol) is
strictly above `g.maxExposureUSD`.  If no group at all contains the
symbol, the check is skipped and the order is allowed. -/
theorem validateOrder_correlation_group_check (config : RiskConfig) (symbol : String)
    (side : Side) (price quantity : ℚ) (allPositions : List Position)
    (strategy : Option Strategy) (globalDailyPnL : ℚ)
    (h1 : config.restrictedSymbols.contains symbol = false)
    (h2 : price * quantity ≤ config.maxOrderValue)
    (h3 : -config.maxGlobalDailyLoss < globalDailyPnL)
    (h4 : strategyLossBreached config strategy = false)
    (h5 : projectedExposureOf allPositions symbol side quantity price
      ≤ config.maxPositionSizeUSD) :
    (∀ pre g post, config.correlationGroups = pre ++ g :: post →
      (∀ g' ∈ pre, g'.symbols.contains symbol = false) →
      g.symbols.contains symbol = true →
      validateOrder config symbol side price quantity allPositions strategy globalDailyPnL
        = (if groupExposure g allPositions symbol
              + projectedExposureOf allPositions symbol side quantity price
              > g.maxExposureUSD then
            ⟨false, some (groupReason g.name (groupExposure g allPositions symbol
              + projectedExposureOf allPositions symbol side quantity price) g.maxExposureUSD)⟩
          else ⟨true, none⟩)) ∧
    ((∀ g' ∈ config.correlationGroups, g'.symbols.contains symbol = false) →
      validateOrder config symbol side price quantity allPositions strategy globalDailyPnL
        = ⟨true, none⟩) := by
  have hpass : validateOrder config symbol side price quantity allPositions strategy globalDailyPnL
      = correlationCheck config symbol allPositions
        (projectedExposureOf allPositions symbol side quantity price) := by
    simp only [validateOrder, lossChecks, positionCheck]
    rw [if_neg (by simpa using h1), if_neg (not_lt.mpr h2), if_neg (not_le.mpr h3),
      if_neg (by simp [h4]), if_neg (not_lt.mpr h5)]
  constructor
  · intro pre g post hdecomp hpre hg
    have hfind : config.correlationGroups.find? (fun g => g.symbols.contains symbol) = some g := by
      rw [hdecomp]
      exact find_first_of_append _ pre post g hpre hg
    rw [hpass]
    simp only [correlationCheck, hfind]
  · intro hnone
    have hfind : config.correlationGroups.find? (fun g => g.symbols.contains symbol) = none := by
      rw [List.find?_eq_none]
      intro g hgmem
      simpa using hnone g hgmem
    rw [hpass]
    simp only [correlationCheck, hfind]

/-- The unit-test configuration with the order-value cap raised to
100000, so that the correlation scenario reaches check 6. -/
def cfgD : RiskConfig :=
  ⟨100000, 5000, 10000, 100000, ["SCAM"],
    [⟨"CRYPTO", "Crypto Assets", ["BTC", "ETH", "SOL"], 150000⟩]⟩

/-- Witness for C3, the spec's Scenario D with a large-enough order cap:
holding ETH worth 100000 in the CRYPTO group (cap 150000), `BUY BTC
1×60000` projects a 160000 group total and is denied with the group
reason. -/
theorem validateOrder_correlation_group_check_witness :
    ((-(10000 : ℚ)) < 0 ∧
     projectedExposureOf [⟨"ETH", 40, 2500, 100000⟩] "BTC" Side.BUY 1 60000 ≤ 100000) ∧
    validateOrder cfgD "BTC" Side.BUY 60000 1 [⟨"ETH", 40, 2500, 100000⟩] none 0
      = ⟨false, some (groupReason "Crypto Assets" 160000 150000)⟩ := by
  have hproj : projectedExposureOf [⟨"ETH", 40, 2500, 100000⟩] "BTC" Side.BUY 1 60000 = 60000 := by
    norm_num [projectedExposureOf, newQtyOf, currentQtyOf, List.find?,
      (by decide : ("ETH" == "BTC") = false)]
  have hgx : groupExposure ⟨"CRYPTO", "Crypto Assets", ["BTC", "ETH", "SOL"], 150000⟩
      [⟨"ETH", 40, 2500, 100000⟩] "BTC" = 100000 := by
    norm_num +decide [groupExposure, List.foldl]
  refine ⟨⟨by norm_num, by rw [hproj]; norm_num [cfgD]⟩, ?_⟩
  have h := (validateOrder_correlation_group_check cfgD "BTC" Side.BUY 60000 1
    [⟨"ETH", 40, 2500, 100000⟩] none 0 (by decide) (by norm_num [cfgD])
    (by norm_num [cfgD]) (by decide) (by rw [hproj]; norm_num [cfgD])).1
    [] ⟨"CRYPTO", "Crypto Assets", ["BTC", "ETH", "SOL"], 150000⟩ [] (by decide)
    (by intro g' hg'; simp at hg') (by decide)
  rw [h, hgx, hproj]
  norm_num

/-- Specification-side reformulation for the ordering contract: the six
guards of §4.1 as an ordered list of (fired, reason) pairs, evaluated
eagerly.  Guard 6 is absent (never fires) when no correlation group
contains the symbol. -/
def specGuards (config : RiskConfig) (symbol : String) (side : Side)
    (price quantity : ℚ) (allPositions : List Position)
    (strategy : Option Strategy) (globalDailyPnL : ℚ) : List (Bool × String) :=
  let orderValue := price * quantity
  let projExp := projectedExposureOf allPositions symbol side quantity price
  [ (config.restrictedSymbols.contains symbol, restrictedReason symbol),
    (decide (orderValue > config.maxOrderValue),
      orderValueReason orderValue config.maxOrderValue),
    (decide (globalDailyPnL ≤ -config.maxGlobalDailyLoss),
      globalLossReason config.maxGlobalDailyLoss),
    (strategyLossBreached config strategy,
      strategyLossReason (strategyNameOf strategy) config.maxDailyLossPerStrategy),
    (decide (projExp > config.maxPositionSizeUSD),
      positionReason symbol projExp config.maxPositionSizeUSD),
    (match config.correlationGroups.find? (fun g => g.symbols.contains symbol) with
     | some group =>
         (decide (groupExposure group allPositions symbol + projExp > group.maxExposureUSD),
           groupReason group.name (groupExposure group allPositions symbol + projExp)
             group.maxExposureUSD)
     | none => (false, "")) ]

/-- Specification-side verdict: the first fired guard in list order
determines the reported reason; if none fires the order is allowed. -/
def validateOrderSpec (config : RiskConfig) (symbol : String) (side : Side)
    (price quantity : ℚ) (allPositions : List Position)
    (strategy : Option Strategy) (globalDailyPnL : ℚ) : RiskCheckResult :=
  match (specGuards config symbol side price quantity allPositions strategy
      globalDailyPnL).find? (fun g => g.1) with
  | some g => ⟨false, some g.2⟩
  | none => ⟨true, none⟩

/-- C2: check ordering and short-circuit.  The engine agrees with the
spec-side "first fired guard in the fixed order restricted-symbol,
order-value, global-loss, strategy-loss, position-size, correlation-group
determines the reason" reformulation on every input; in particular an
order that is both restricted and over the order-value cap reports the
restricted-symbol reason, never the order-value reason. -/
theorem validateOrder_first_failing_guard (config : RiskConfig) (symbol : String)
    (side : Side) (price quantity : ℚ) (allPositions : List Position)
    (strategy : Option Strategy) (globalDailyPnL : ℚ) :
    validateOrder config symbol side price quantity allPositions strategy globalDailyPnL
      = validateOrderSpec config symbol side price quantity allPositions strategy
          globalDailyPnL ∧
    (config.restrictedSymbols.contains symbol = true →
      price * quantity > config.maxOrderValue →
      validateOrder config symbol side price quantity allPositions strategy globalDailyPnL
        = ⟨false, some (restrictedReason symbol)⟩) := by
  constructor
  · simp only [validateOrder, validateOrderSpec, specGuards, lossChecks, positionCheck,
      correlationCheck, List.find?]
    cases h1 : config.restrictedSymbols.contains symbol <;>
      simp only [h1, if_true, if_false, Bool.false_eq_true, if_neg, reduceIte]
    try rfl
    by_cases h2 : price * quantity > config.maxOrderValue <;>
      simp only [h2, decide_True, decide_False, if_true, if_false, reduceIte, decide_eq_true_eq]
    try rfl
    by_cases h3 : globalDailyPnL ≤ -config.maxGlobalDailyLoss <;>
      simp only [h3, decide_True, decide_False, reduceIte]
    try rfl
    cases h4 : strategyLossBreached config strategy <;>
      simp only [h4, reduceIte]
    try rfl
    by_cases h5 : projectedExposureOf allPositions symbol side quantity price
        > config.maxPositionSizeUSD <;>
      simp only [h5, decide_True, decide_False, reduceIte] <;> try rfl
    cases h6 : config.correlationGroups.find? (fun g => g.symbols.contains symbol) with
    | none => simp
    | some group =>
        by_cases h7 : groupExposure group allPositions symbol
            + projectedExposureOf allPositions symbol side quantity price
            > group.maxExposureUSD <;>
          simp [h7]
  · intro h1 h2
    have hmem : symbol ∈ config.restrictedSymbols := by simpa using h1
    simp [validateOrder, hmem]

/-- Witness for C2: under `cfgA`, `BUY SCAM 1000×1000` is both restricted
and over the order-value cap, and the verdict carries the restricted
reason, not the order-value reason. -/
theorem validateOrder_first_failing_guard_witness :
    (cfgA.restrictedSymbols.contains "SCAM" = true ∧
     (1000 : ℚ) * 1000 > cfgA.maxOrderValue) ∧
    validateOrder cfgA "SCAM" Side.BUY 1000 1000 [] none 0
      = ⟨false, some (restrictedReason "SCAM")⟩ :=
  ⟨⟨by decide, by norm_num [cfgA]⟩,
    (validateOrder_first_failing_guard cfgA "SCAM" Side.BUY 1000 1000 [] none 0).2
      (by decide) (by norm_num [cfgA])⟩

/-- C4: projected single-instrument exposure.  Assuming checks 1–4 pass:
the current quantity is read from the portfolio position whose symbol
matches (0 when absent); the new quantity adds the order quantity for BUY
and subtracts it for SELL; the projected exposure is `|newQty × price|`
with the order's price; the engine denies here, with the projected-position
reason, exactly when that exposure strictly exceeds `maxPositionSizeUSD` —
otherwise evaluation continues with the correlation check. -/
theorem validateOrder_projected_exposure_check (config : RiskConfig) (symbol : String)
    (side : Side) (price quantity : ℚ) (allPositions : List Position)
    (strategy : Option Strategy) (globalDailyPnL : ℚ)
    (h1 : config.restrictedSymbols.contains symbol = false)
    (h2 : price * quantity ≤ config.maxOrderValue)
    (h3 : -config.maxGlobalDailyLoss < globalDailyPnL)
    (h4 : strategyLossBreached config strategy = false) :
    (∀ p, allPositions.find? (fun p => p.symbol == symbol) = some p →
      currentQtyOf allPositions symbol = p.quantity) ∧
    (allPositions.find? (fun p => p.symbol == symbol) = none →
      currentQtyOf allPositions symbol = 0) ∧
    newQtyOf allPositions symbol Side.BUY quantity
      = currentQtyOf allPositions symbol + quantity ∧
    newQtyOf allPositions symbol Side.SELL quantity
      = currentQtyOf allPositions symbol - quantity ∧
    projectedExposureOf allPositions symbol side quantity price
      = |newQtyOf allPositions symbol side quantity * price| ∧
    (projectedExposureOf allPositions symbol side quantity price
        > config.maxPositionSizeUSD →
      validateOrder config symbol side price quantity allPositions strategy globalDailyPnL
        = ⟨false, some (positionReason symbol
            (projectedExposureOf allPositions symbol side quantity price)
            config.maxPositionSizeUSD)⟩) ∧
    (projectedExposureOf allPositions symbol side quantity price
        ≤ config.maxPositionSizeUSD →
      validateOrder config symbol side price quantity allPositions strategy globalDailyPnL
        = correlationCheck config symbol allPositions
            (projectedExposureOf allPositions symbol side quantity price)) := by
  have hpass : validateOrder config symbol side price quantity allPositions strategy globalDailyPnL
      = positionCheck config symbol side price quantity allPositions := by
    simp only [validateOrder, lossChecks]
    rw [if_neg (by simpa using h1), if_neg (not_lt.mpr h2), if_neg (not_le.mpr h3),
      if_neg (by simp [h4])]
  refine ⟨?_, ?_, rfl, rfl, rfl, ?_, ?_⟩
  · intro p hp
    simp [currentQtyOf, hp]
  · intro hp
    simp [currentQtyOf, hp]
  · intro hover
    rw [hpass]
    simp only [positionCheck, if_pos hover]
  · intro hwithin
    rw [hpass]
    simp only [positionCheck, if_neg (not_lt.mpr hwithin)]

/-- Witness for C4, the spec's Scenario C: holding BTC qty 1.5, `BUY BTC
0.5×60000` projects `|2 × 60000| = 120000 > 100000` and is denied with the
projected-position reason. -/
theorem validateOrder_projected_exposure_check_witness :
    (cfgA.restrictedSymbols.contains "BTC" = false ∧
     (60000 : ℚ) * (1/2) ≤ cfgA.maxOrderValue ∧
     projectedExposureOf [⟨"BTC", 3/2, 60000, 90000⟩] "BTC" Side.BUY (1/2) 60000
       > cfgA.maxPositionSizeUSD) ∧
    validateOrder cfgA "BTC" Side.BUY 60000 (1/2) [⟨"BTC", 3/2, 60000, 90000⟩] none 0
      = ⟨false, some (positionReason "BTC"
          (projectedExposureOf [⟨"BTC", 3/2, 60000, 90000⟩] "BTC" Side.BUY (1/2) 60000)
          cfgA.maxPositionSizeUSD)⟩ := by
  have hproj : projectedExposureOf [⟨"BTC", 3/2, 60000, 90000⟩] "BTC" Side.BUY (1/2) 60000
      = 120000 := by
    norm_num +decide [projectedExposureOf, newQtyOf, currentQtyOf, List.find?]
  refine ⟨⟨by decide, by norm_num [cfgA], by rw [hproj]; norm_num [cfgA]⟩, ?_⟩
  exact (validateOrder_projected_exposure_check cfgA "BTC" Side.BUY 60000 (1/2)
    [⟨"BTC", 3/2, 60000, 90000⟩] none 0 (by decide) (by norm_num [cfgA])
    (by norm_num [cfgA]) (by decide)).2.2.2.2.2.1 (by rw [hproj]; norm_num [cfgA])

/-- C7: boundary equality passes.  Monetary comparisons are strict: an
order value exactly equal to `maxOrderValue` is not denied by the
order-value check (evaluation proceeds to check 3); a projected exposure
exactly equal to `maxPositionSizeUSD` is not denied by the position-size
check (evaluation proceeds to check 6); a group total exactly equal to the
matched group's `maxExposureUSD` is not denied by the correlation check
(the order is allowed). -/
theorem validateOrder_boundary_equality_passes (config : RiskConfig) (symbol : String)
    (side : Side) (price quantity : ℚ) (allPositions : List Position)
    (strategy : Option Strategy) (globalDailyPnL : ℚ) :
    (config.restrictedSymbols.contains symbol = false →
      price * quantity = config.maxOrderValue →
      validateOrder config symbol side price quantity allPositions strategy globalDailyPnL
        = lossChecks config symbol side price quantity allPositions strategy globalDailyPnL) ∧
    (config.restrictedSymbols.contains symbol = false →
      price * quantity ≤ config.maxOrderValue →
      -config.maxGlobalDailyLoss < globalDailyPnL →
      strategyLossBreached config strategy = false →
      projectedExposureOf allPositions symbol side quantity price
        = config.maxPositionSizeUSD →
      validateOrder config symbol side price quantity allPositions strategy globalDailyPnL
        = correlationCheck config symbol allPositions
            (projectedExposureOf allPositions symbol side quantity price)) ∧
    (config.restrictedSymbols.contains symbol = false →
      price * quantity ≤ config.maxOrderValue →
      -config.maxGlobalDailyLoss < globalDailyPnL →
      strategyLossBreached config strategy = false →
      projectedExposureOf allPositions symbol side quantity price
        ≤ config.maxPositionSizeUSD →
      (∀ g, config.correlationGroups.find? (fun g => g.symbols.contains symbol) = some g →
        groupExposure g allPositions symbol
            + projectedExposureOf allPositions symbol side quantity price
          = g.maxExposureUSD) →
      validateOrder config symbol side price quantity allPositions strategy globalDailyPnL
        = ⟨true, none⟩) := by
  refine ⟨?_, ?_, ?_⟩
  · intro h1 h2
    simp only [validateOrder]
    rw [if_neg (by simpa using h1), if_neg (not_lt.mpr (le_of_eq h2))]
  · intro h1 h2 h3 h4 h5
    simp only [validateOrder, lossChecks, positionCheck]
    rw [if_neg (by simpa using h1), if_neg (not_lt.mpr h2), if_neg (not_le.mpr h3),
      if_neg (by simp [h4]), if_neg (not_lt.mpr (le_of_eq h5))]
  · intro h1 h2 h3 h4 h5 h6
    simp only [validateOrder, lossChecks, positionCheck]
    rw [if_neg (by simpa using h1), if_neg (not_lt.mpr h2), if_neg (not_le.mpr h3),
      if_neg (by simp [h4]), if_neg (not_lt.mpr h5)]
    rcases hfind : config.correlationGroups.find? (fun g => g.symbols.contains symbol) with _ | g
    · simp only [correlationCheck, hfind]
    · simp only [correlationCheck, hfind]
      rw [if_neg (not_lt.mpr (le_of_eq (h6 g hfind)))]

/-- A configuration putting every cap exactly at the values of the order
`BUY BTC 2×50000` against an empty portfolio. -/
def cfgBoundary : RiskConfig :=
  ⟨100000, 5000, 10000, 100000, [], [⟨"CRYPTO", "Crypto Assets", ["BTC"], 100000⟩]⟩

/-- Witness for C7: with order value, projected exposure and group total
all exactly at their limits, `BUY BTC 2×50000` is allowed. -/
theorem validateOrder_boundary_equality_passes_witness :
    ((50000 : ℚ) * 2 ≤ cfgBoundary.maxOrderValue ∧
     projectedExposureOf [] "BTC" Side.BUY 2 50000 ≤ cfgBoundary.maxPositionSizeUSD) ∧
    validateOrder cfgBoundary "BTC" Side.BUY 50000 2 [] none 0 = ⟨true, none⟩ := by
  have hproj : projectedExposureOf [] "BTC" Side.BUY 2 50000 = 100000 := by
    norm_num [projectedExposureOf, newQtyOf, currentQtyOf, List.find?]
  refine ⟨⟨by norm_num [cfgBoundary], by rw [hproj]; norm_num [cfgBoundary]⟩, ?_⟩
  exact (validateOrder_boundary_equality_passes cfgBoundary "BTC" Side.BUY 50000 2 [] none 0).2.2
    (by decide) (by norm_num [cfgBoundary]) (by norm_num [cfgBoundary]) (by decide)
    (by rw [hproj]; norm_num [cfgBoundary])
    (by
      intro g hg
      simp only [List.find?] at hg
      cases hg
      rw [hproj]
      norm_num [groupExposure, List.foldl])

end AlphaBharat
